import Mathlib

set_option maxRecDepth 100000

/-!
Verification of the configuration module src/eig/src/constants.rs of the
galapagotchi repository: the Stage lifecycle enumeration, the FabricFeature
parameter table with its binary32 default values, the IntervalRole roles,
and the visualization palettes.

All Rust f32 computation is embedded exactly: a binary32 value is the
rational it denotes, every arithmetic operation is the exact rational
operation followed by correct rounding to 24 bits of significand with ties
to even (IEEE 754 round-to-nearest-even, the rounding Rust uses for f32
constant evaluation, literal parsing and sqrt).  Rationals are kept as raw
numerator/denominator pairs and all recursion is structural with explicit
fuel, so the kernel can evaluate every definition.
-/

/-- Raw rational numbers as numerator/denominator pairs.  Every construction
in this file keeps the denominator positive.  Raw pairs (no gcd
normalisation) keep all operations structurally recursive and
kernel-evaluable. -/
structure PreQ where
  n : ℤ
  d : ℤ
  deriving DecidableEq

/-- The rational value denoted by a raw pair. -/
def PreQ.val (a : PreQ) : ℚ := (a.n : ℚ) / (a.d : ℚ)

/-- Floor of log2 of a positive natural, with explicit fuel; fuel 300 covers
every number appearing in this development. -/
def lg2 : ℕ → ℕ → ℕ
  | 0, _ => 0
  | f + 1, m => if m ≤ 1 then 0 else lg2 f (m / 2) + 1

/-- Floor of log2 of the positive rational m / d. -/
def floorLog2 (m d : ℕ) : ℤ :=
  let a := lg2 300 m
  let b := lg2 300 d
  if d * 2 ^ a ≤ m * 2 ^ b then (a : ℤ) - (b : ℤ) else (a : ℤ) - (b : ℤ) - 1

/-- Round the nonnegative rational m / d (with d positive) to the nearest
integer, ties to even. -/
def rnev (m d : ℕ) : ℕ :=
  let q := m / d
  let r := m % d
  if 2 * r < d then q
  else if d < 2 * r then q + 1
  else if q % 2 = 0 then q else q + 1

/-- The raw pair denoting mm * 2 ^ j. -/
def mkPow2 (mm : ℕ) (j : ℤ) : PreQ :=
  if 0 ≤ j then ⟨(mm : ℤ) * 2 ^ j.toNat, 1⟩ else ⟨(mm : ℤ), 2 ^ (-j).toNat⟩

/-- Round the positive rational m / d to the nearest binary32 value: with e
the floor of log2, the significand is the nearest integer (ties to even) to
(m / d) * 2 ^ (23 - e).  All values in this file are far inside the normal
range of f32, so subnormals and overflow cannot arise. -/
def roundPos (m d : ℕ) : PreQ :=
  let e := floorLog2 m d
  let mm :=
    if 0 ≤ 23 - e then rnev (m * 2 ^ (23 - e).toNat) d
    else rnev m (d * 2 ^ (e - 23).toNat)
  mkPow2 mm (e - 23)

/-- Round a rational (raw pair with positive denominator) to the nearest
binary32 value, ties to even: the semantics of every Rust f32 arithmetic
operation and of f32 literal parsing. -/
def roundF32 (q : PreQ) : PreQ :=
  if q.n = 0 then ⟨0, 1⟩
  else if 0 < q.n then roundPos q.n.toNat q.d.toNat
  else ⟨-(roundPos (-q.n).toNat q.d.toNat).n, (roundPos (-q.n).toNat q.d.toNat).d⟩

/-- Newton step for the integer square root, with explicit fuel. -/
def isqrtAux : ℕ → ℕ → ℕ → ℕ
  | 0, _, g => g
  | f + 1, m, g =>
    let t := (g + m / g) / 2
    if t < g then isqrtAux f m t else g

/-- Integer square root (floor of the real root) by Newton iteration from
the initial guess 2 ^ (lg2 m / 2 + 1), which is at least the root and at
most twice the root, so 60 steps of fuel are ample. -/
def isqrt (m : ℕ) : ℕ :=
  if m ≤ 1 then m else isqrtAux 60 m (2 ^ (lg2 300 m / 2 + 1))

/-- Correctly rounded binary32 square root of a nonnegative rational: the
semantics of Rust f32 sqrt.  The input is scaled to y = p / dd with the real
root of y in the binade of 24-bit significands, and the rounded significand
floor (root y + 1 / 2) is computed exactly as (isqrt (4 * p * dd) + dd) /
(2 * dd); a rounding tie is impossible because the square of a significand
midpoint has an odd part too wide to be a scaled 24-bit input. -/
def f32sqrt (q : PreQ) : PreQ :=
  if q.n ≤ 0 then ⟨0, 1⟩
  else
    let m := q.n.toNat
    let d := q.d.toNat
    let e := Int.fdiv (floorLog2 m d) 2
    let j := 2 * (23 - e)
    let p := if 0 ≤ j then m * 2 ^ j.toNat else m
    let dd := if 0 ≤ j then d else d * 2 ^ (-j).toNat
    mkPow2 ((isqrt (4 * p * dd) + dd) / (2 * dd)) (e - 23)

/-- Rust f32 addition: exact sum, then binary32 rounding. -/
def f32add (a b : PreQ) : PreQ := roundF32 ⟨a.n * b.d + b.n * a.d, a.d * b.d⟩

/-- Rust f32 subtraction: exact difference, then binary32 rounding. -/
def f32sub (a b : PreQ) : PreQ := roundF32 ⟨a.n * b.d - b.n * a.d, a.d * b.d⟩

/-- Rust f32 multiplication: exact product, then binary32 rounding. -/
def f32mul (a b : PreQ) : PreQ := roundF32 ⟨a.n * b.n, a.d * b.d⟩

/-- Rust f32 division: exact quotient, then binary32 rounding.  Every
divisor in this file is positive, which keeps the denominator positive. -/
def f32div (a b : PreQ) : PreQ := roundF32 ⟨a.n * b.d, a.d * b.n⟩

/-- Binary32 value of a decimal literal: Rust parses f32 literals with
correct rounding, which is exactly roundF32 of the exact decimal. -/
def f32lit (a : PreQ) : PreQ := roundF32 a

/-- Unit in the last place of a positive binary32 value: 2 ^ (e - 23) where
e is the floor of log2 of the value. -/
def ulpF32 (a : PreQ) : PreQ := mkPow2 1 (floorLog2 a.n.toNat a.d.toNat - 23)

/-- Lifecycle stages of a structure, from src/eig/src/constants.rs, in
declaration order (the repr u8 discriminants are 0, 1, 2, 3, 4, 5). -/
inductive Stage
  | Busy
  | Growing
  | Shaping
  | Slack
  | Realizing
  | Realized
  deriving DecidableEq, Fintype

/-- Discriminant of a Stage: repr u8 assigns declaration order from 0. -/
def stageTag : Stage → ℕ
  | Stage.Busy => 0
  | Stage.Growing => 1
  | Stage.Shaping => 2
  | Stage.Slack => 3
  | Stage.Realizing => 4
  | Stage.Realized => 5

/-- Comparison on Stage values: the derived PartialOrd of a fieldless Rust
enum compares discriminants. -/
abbrev stage_le (s t : Stage) : Prop := stageTag s ≤ stageTag t

/-- Strict comparison on Stage values, by discriminant. -/
abbrev stage_lt (s t : Stage) : Prop := stageTag s < stageTag t

/-- Equality test on Stage values: the derived PartialEq of a fieldless Rust
enum compares discriminants. -/
def stage_eq (s t : Stage) : Bool := stageTag s == stageTag t

/-- Surface contact behaviors, from src/eig/src/constants.rs. -/
inductive SurfaceCharacter
  | Frozen
  | Sticky
  | Slippery
  | Bouncy
  deriving DecidableEq, Fintype

/-- Discriminant of a SurfaceCharacter: declaration order from 0. -/
def surfaceCharacterTag : SurfaceCharacter → ℕ
  | SurfaceCharacter.Frozen => 0
  | SurfaceCharacter.Sticky => 1
  | SurfaceCharacter.Slippery => 2
  | SurfaceCharacter.Bouncy => 3

/-- The 24 tunable parameters, from src/eig/src/constants.rs, in declaration
order. -/
inductive FabricFeature
  | Gravity
  | Drag
  | PretenstFactor
  | IterationsPerFrame
  | IntervalCountdown
  | RealizingCountdown
  | SlackThreshold
  | ShapingPretenstFactor
  | ShapingStiffnessFactor
  | ShapingDrag
  | MaxStrain
  | VisualStrain
  | NexusPushLength
  | ColumnPushLength
  | TriangleLength
  | RingLength
  | NexusCrossLength
  | ColumnCrossLength
  | BowMidLength
  | BowEndLength
  | PushOverPull
  | PushRadiusFactor
  | PullRadiusFactor
  | MaxStiffness
  deriving DecidableEq, Fintype

/-- Discriminant of a FabricFeature: declaration order from 0. -/
def fabricFeatureTag : FabricFeature → ℕ
  | FabricFeature.Gravity => 0
  | FabricFeature.Drag => 1
  | FabricFeature.PretenstFactor => 2
  | FabricFeature.IterationsPerFrame => 3
  | FabricFeature.IntervalCountdown => 4
  | FabricFeature.RealizingCountdown => 5
  | FabricFeature.SlackThreshold => 6
  | FabricFeature.ShapingPretenstFactor => 7
  | FabricFeature.ShapingStiffnessFactor => 8
  | FabricFeature.ShapingDrag => 9
  | FabricFeature.MaxStrain => 10
  | FabricFeature.VisualStrain => 11
  | FabricFeature.NexusPushLength => 12
  | FabricFeature.ColumnPushLength => 13
  | FabricFeature.TriangleLength => 14
  | FabricFeature.RingLength => 15
  | FabricFeature.NexusCrossLength => 16
  | FabricFeature.ColumnCrossLength => 17
  | FabricFeature.BowMidLength => 18
  | FabricFeature.BowEndLength => 19
  | FabricFeature.PushOverPull => 20
  | FabricFeature.PushRadiusFactor => 21
  | FabricFeature.PullRadiusFactor => 22
  | FabricFeature.MaxStiffness => 23

/-- The structural member roles, from src/eig/src/constants.rs, in
declaration order. -/
inductive IntervalRole
  | NexusPush
  | ColumnPush
  | Triangle
  | Ring
  | NexusCross
  | ColumnCross
  | BowMid
  | BowEnd
  | FacePull
  deriving DecidableEq, Fintype

/-- Discriminant of an IntervalRole: declaration order from 0. -/
def intervalRoleTag : IntervalRole → ℕ
  | IntervalRole.NexusPush => 0
  | IntervalRole.ColumnPush => 1
  | IntervalRole.Triangle => 2
  | IntervalRole.Ring => 3
  | IntervalRole.NexusCross => 4
  | IntervalRole.ColumnCross => 5
  | IntervalRole.BowMid => 6
  | IntervalRole.BowEnd => 7
  | IntervalRole.FacePull => 8

/-- The constant ROOT2 of constants.rs: the f32 literal 1.414213562373095. -/
def ROOT2 : PreQ := f32lit ⟨1414213562373095, 1000000000000000⟩

/-- The constant ROOT3 of constants.rs: the f32 literal 1.732050807568877. -/
def ROOT3 : PreQ := f32lit ⟨1732050807568877, 1000000000000000⟩

/-- The constant ROOT5 of constants.rs: the f32 literal 2.23606797749979. -/
def ROOT5 : PreQ := f32lit ⟨223606797749979, 100000000000000⟩

/-- The constant PHI of constants.rs: (1 + ROOT5) / 2 in f32 arithmetic. -/
def PHI : PreQ := f32div (f32add (f32lit ⟨1, 1⟩) ROOT5) (f32lit ⟨2, 1⟩)

/-- The constant CROSS1 of constants.rs: the f32 literal 0.5. -/
def CROSS1 : PreQ := f32lit ⟨1, 2⟩

/-- The constant CROSS2 of constants.rs: (PHI / 3 - 1 / 6) * ROOT3 in f32
arithmetic. -/
def CROSS2 : PreQ :=
  f32mul (f32sub (f32div PHI (f32lit ⟨3, 1⟩)) (f32div (f32lit ⟨1, 1⟩) (f32lit ⟨6, 1⟩))) ROOT3

/-- The constant CROSS3 of constants.rs: PHI / 3 * ROOT3 - 1 + ROOT2 / ROOT3
in f32 arithmetic (left associated, as in Rust). -/
def CROSS3 : PreQ :=
  f32add (f32sub (f32mul (f32div PHI (f32lit ⟨3, 1⟩)) ROOT3) (f32lit ⟨1, 1⟩))
    (f32div ROOT2 ROOT3)

/-- The function default_fabric_feature of constants.rs: the default value
of each tunable parameter, computed in f32 arithmetic exactly as in the
source match expression. -/
def default_fabric_feature : FabricFeature → PreQ
  | FabricFeature.Gravity => f32lit ⟨1, 10000000⟩
  | FabricFeature.Drag => f32lit ⟨1, 10000⟩
  | FabricFeature.PretenstFactor => f32lit ⟨3, 100⟩
  | FabricFeature.IterationsPerFrame => f32lit ⟨100, 1⟩
  | FabricFeature.IntervalCountdown => f32lit ⟨1000, 1⟩
  | FabricFeature.RealizingCountdown => f32lit ⟨30000, 1⟩
  | FabricFeature.SlackThreshold => f32lit ⟨1, 10000⟩
  | FabricFeature.ShapingPretenstFactor => f32lit ⟨1, 10⟩
  | FabricFeature.ShapingStiffnessFactor => f32lit ⟨10, 1⟩
  | FabricFeature.ShapingDrag => f32lit ⟨1, 10⟩
  | FabricFeature.MaxStrain => f32lit ⟨1, 10⟩
  | FabricFeature.VisualStrain => f32lit ⟨1, 1⟩
  | FabricFeature.NexusPushLength => PHI
  | FabricFeature.ColumnPushLength => ROOT2
  | FabricFeature.TriangleLength => f32lit ⟨1, 1⟩
  | FabricFeature.RingLength =>
      f32sqrt (f32sub (f32lit ⟨2, 1⟩)
        (f32mul (f32lit ⟨2, 1⟩) (f32sqrt (f32div (f32lit ⟨2, 1⟩) (f32lit ⟨3, 1⟩)))))
  | FabricFeature.NexusCrossLength =>
      f32sqrt (f32add (f32add (f32mul CROSS1 CROSS1) (f32mul CROSS2 CROSS2))
        (f32mul CROSS3 CROSS3))
  | FabricFeature.ColumnCrossLength => f32lit ⟨1, 1⟩
  | FabricFeature.BowMidLength => f32lit ⟨4, 10⟩
  | FabricFeature.BowEndLength => f32lit ⟨6, 10⟩
  | FabricFeature.PushOverPull => f32lit ⟨1, 1⟩
  | FabricFeature.PushRadiusFactor => f32lit ⟨4, 1⟩
  | FabricFeature.PullRadiusFactor => f32lit ⟨2, 1⟩
  | FabricFeature.MaxStiffness => f32lit ⟨5, 10000⟩

/-- The constant ATTENUATED_COLOR of constants.rs. -/
def ATTENUATED_COLOR : PreQ × PreQ × PreQ :=
  (f32lit ⟨0, 1⟩, f32lit ⟨0, 1⟩, f32lit ⟨0, 1⟩)

/-- The constant SLACK_COLOR of constants.rs. -/
def SLACK_COLOR : PreQ × PreQ × PreQ :=
  (f32lit ⟨0, 1⟩, f32lit ⟨1, 1⟩, f32lit ⟨0, 1⟩)

/-- The 9-entry role color palette ROLE_COLORS of constants.rs, each
component the f32 value of the source decimal literal. -/
def ROLE_COLORS : List (PreQ × PreQ × PreQ) :=
  [ (f32lit ⟨799, 1000⟩, f32lit ⟨519, 1000⟩, f32lit ⟨304, 1000⟩)
  , (f32lit ⟨879, 1000⟩, f32lit ⟨295, 1000⟩, f32lit ⟨374, 1000⟩)
  , (f32lit ⟨215, 1000⟩, f32lit ⟨629, 1000⟩, f32lit ⟨747, 1000⟩)
  , (f32lit ⟨618, 1000⟩, f32lit ⟨126, 1000⟩, f32lit ⟨776, 1000⟩)
  , (f32lit ⟨670, 1000⟩, f32lit ⟨627, 1000⟩, f32lit ⟨398, 1000⟩)
  , (f32lit ⟨242, 1000⟩, f32lit ⟨879, 1000⟩, f32lit ⟨410, 1000⟩)
  , (f32lit ⟨613, 1000⟩, f32lit ⟨692, 1000⟩, f32lit ⟨382, 1000⟩)
  , (f32lit ⟨705, 1000⟩, f32lit ⟨709, 1000⟩, f32lit ⟨19, 1000⟩)
  , (f32lit ⟨577, 1000⟩, f32lit ⟨577, 1000⟩, f32lit ⟨577, 1000⟩) ]

/-- The 12-entry rainbow palette RAINBOW of constants.rs, each component the
f32 value of the source decimal literal. -/
def RAINBOW : List (PreQ × PreQ × PreQ) :=
  [ (f32lit ⟨1373, 10000⟩, f32lit ⟨1608, 10000⟩, f32lit ⟨9686, 10000⟩)
  , (f32lit ⟨0, 10000⟩, f32lit ⟨4824, 10000⟩, f32lit ⟨10000, 10000⟩)
  , (f32lit ⟨0, 10000⟩, f32lit ⟨6471, 10000⟩, f32lit ⟨10000, 10000⟩)
  , (f32lit ⟨0, 10000⟩, f32lit ⟨7686, 10000⟩, f32lit ⟨8431, 10000⟩)
  , (f32lit ⟨0, 10000⟩, f32lit ⟨8667, 10000⟩, f32lit ⟨6784, 10000⟩)
  , (f32lit ⟨3059, 10000⟩, f32lit ⟨8667, 10000⟩, f32lit ⟨5137, 10000⟩)
  , (f32lit ⟨5020, 10000⟩, f32lit ⟨8549, 10000⟩, f32lit ⟨3216, 10000⟩)
  , (f32lit ⟨6863, 10000⟩, f32lit ⟨8235, 10000⟩, f32lit ⟨0, 10000⟩)
  , (f32lit ⟨8314, 10000⟩, f32lit ⟨7098, 10000⟩, f32lit ⟨0, 10000⟩)
  , (f32lit ⟨9294, 10000⟩, f32lit ⟨5804, 10000⟩, f32lit ⟨0, 10000⟩)
  , (f32lit ⟨9843, 10000⟩, f32lit ⟨4431, 10000⟩, f32lit ⟨1647, 10000⟩)
  , (f32lit ⟨9882, 10000⟩, f32lit ⟨3020, 10000⟩, f32lit ⟨3020, 10000⟩) ]

/-- The constant SHAPE_COUNT of constants.rs. -/
def SHAPE_COUNT : ℕ := 16

/-- The constant REST_SHAPE of constants.rs. -/
def REST_SHAPE : ℕ := 0

/-- Spec section 4.2: the golden ratio (1 + sqrt 5) / 2, evaluated in f32
arithmetic (the second, spec-side definition used for refinement claims;
the source-side constant PHI above is computed from the decimal literal
ROOT5 instead of an f32 square root). -/
def specPHI : PreQ :=
  f32div (f32add (f32lit ⟨1, 1⟩) (f32sqrt (f32lit ⟨5, 1⟩))) (f32lit ⟨2, 1⟩)

/-- Spec section 4.2: CROSS1 = 0.5. -/
def specCROSS1 : PreQ := f32lit ⟨1, 2⟩

/-- Spec section 4.2: CROSS2 = (PHI / 3 - 1 / 6) * sqrt 3, evaluated in f32
arithmetic from the spec-side constants. -/
def specCROSS2 : PreQ :=
  f32mul (f32sub (f32div specPHI (f32lit ⟨3, 1⟩)) (f32div (f32lit ⟨1, 1⟩) (f32lit ⟨6, 1⟩)))
    (f32sqrt (f32lit ⟨3, 1⟩))

/-- Spec section 4.2: CROSS3 = PHI / 3 * sqrt 3 - 1 + sqrt 2 / sqrt 3,
evaluated in f32 arithmetic from the spec-side constants. -/
def specCROSS3 : PreQ :=
  f32add (f32sub (f32mul (f32div specPHI (f32lit ⟨3, 1⟩)) (f32sqrt (f32lit ⟨3, 1⟩)))
      (f32lit ⟨1, 1⟩))
    (f32div (f32sqrt (f32lit ⟨2, 1⟩)) (f32sqrt (f32lit ⟨3, 1⟩)))

/-- Spec section 4.2: the Ring rest length sqrt (2 - 2 * sqrt (2 / 3)),
evaluated in f32 arithmetic. -/
def specRingLength : PreQ :=
  f32sqrt (f32sub (f32lit ⟨2, 1⟩)
    (f32mul (f32lit ⟨2, 1⟩) (f32sqrt (f32div (f32lit ⟨2, 1⟩) (f32lit ⟨3, 1⟩)))))

/-- Spec section 4.2: the NexusCross rest length
sqrt (CROSS1 ^ 2 + CROSS2 ^ 2 + CROSS3 ^ 2), evaluated in f32 arithmetic. -/
def specNexusCrossLength : PreQ :=
  f32sqrt (f32add (f32add (f32mul specCROSS1 specCROSS1) (f32mul specCROSS2 specCROSS2))
    (f32mul specCROSS3 specCROSS3))

/-- Spec section 4.3: the feature table of default values, written from the
table in the spec (the second definition of a refinement pair, to be
compared with the source function default_fabric_feature).  The entries
marked derived in the table refer to the section 4.2 formulas. -/
def specFeatureValue : FabricFeature → PreQ
  | FabricFeature.Gravity => f32lit ⟨1, 10000000⟩
  | FabricFeature.Drag => f32lit ⟨1, 10000⟩
  | FabricFeature.PretenstFactor => f32lit ⟨3, 100⟩
  | FabricFeature.IterationsPerFrame => f32lit ⟨100, 1⟩
  | FabricFeature.IntervalCountdown => f32lit ⟨1000, 1⟩
  | FabricFeature.RealizingCountdown => f32lit ⟨30000, 1⟩
  | FabricFeature.SlackThreshold => f32lit ⟨1, 10000⟩
  | FabricFeature.ShapingPretenstFactor => f32lit ⟨1, 10⟩
  | FabricFeature.ShapingStiffnessFactor => f32lit ⟨10, 1⟩
  | FabricFeature.ShapingDrag => f32lit ⟨1, 10⟩
  | FabricFeature.MaxStrain => f32lit ⟨1, 10⟩
  | FabricFeature.VisualStrain => f32lit ⟨1, 1⟩
  | FabricFeature.NexusPushLength => specPHI
  | FabricFeature.ColumnPushLength => f32sqrt (f32lit ⟨2, 1⟩)
  | FabricFeature.TriangleLength => f32lit ⟨1, 1⟩
  | FabricFeature.RingLength => specRingLength
  | FabricFeature.NexusCrossLength => specNexusCrossLength
  | FabricFeature.ColumnCrossLength => f32lit ⟨1, 1⟩
  | FabricFeature.BowMidLength => f32lit ⟨4, 10⟩
  | FabricFeature.BowEndLength => f32lit ⟨6, 10⟩
  | FabricFeature.PushOverPull => f32lit ⟨1, 1⟩
  | FabricFeature.PushRadiusFactor => f32lit ⟨4, 1⟩
  | FabricFeature.PullRadiusFactor => f32lit ⟨2, 1⟩
  | FabricFeature.MaxStiffness => f32lit ⟨5, 10000⟩

/-- Modelled from the spec: the function default_rest_length of section 4.2
is not part of src/eig/src/constants.rs (the crate exposes the per-role
lengths through the feature table instead); it is modelled here by the
section 4.2 formulas evaluated in f32 arithmetic.  The spec gives FacePull
no geometric default and says callers supply its length externally; the
model returns 1 there and no claim depends on that value. -/
def default_rest_length : IntervalRole → PreQ
  | IntervalRole.NexusPush => specPHI
  | IntervalRole.ColumnPush => f32sqrt (f32lit ⟨2, 1⟩)
  | IntervalRole.Triangle => f32lit ⟨1, 1⟩
  | IntervalRole.Ring => specRingLength
  | IntervalRole.NexusCross => specNexusCrossLength
  | IntervalRole.ColumnCross => f32lit ⟨1, 1⟩
  | IntervalRole.BowMid => f32lit ⟨4, 10⟩
  | IntervalRole.BowEnd => f32lit ⟨6, 10⟩
  | IntervalRole.FacePull => f32lit ⟨1, 1⟩

/-- Modelled from the spec: construction of a Stage from a raw u8 tag.  The
conversion lives in the generated host-boundary layer, not in
src/eig/src/constants.rs; section 7 requires an out-of-range tag to fail
explicitly, which the model expresses by returning none. -/
def stageFromTag : ℕ → Option Stage
  | 0 => some Stage.Busy
  | 1 => some Stage.Growing
  | 2 => some Stage.Shaping
  | 3 => some Stage.Slack
  | 4 => some Stage.Realizing
  | 5 => some Stage.Realized
  | _ => none

/-- Modelled from the spec: construction of a SurfaceCharacter from a raw
u8 tag, failing with none on an out-of-range tag (spec section 7). -/
def surfaceCharacterFromTag : ℕ → Option SurfaceCharacter
  | 0 => some SurfaceCharacter.Frozen
  | 1 => some SurfaceCharacter.Sticky
  | 2 => some SurfaceCharacter.Slippery
  | 3 => some SurfaceCharacter.Bouncy
  | _ => none

/-- Modelled from the spec: construction of a FabricFeature from a raw u8
tag, failing with none on an out-of-range tag (spec section 7). -/
def fabricFeatureFromTag : ℕ → Option FabricFeature
  | 0 => some FabricFeature.Gravity
  | 1 => some FabricFeature.Drag
  | 2 => some FabricFeature.PretenstFactor
  | 3 => some FabricFeature.IterationsPerFrame
  | 4 => some FabricFeature.IntervalCountdown
  | 5 => some FabricFeature.RealizingCountdown
  | 6 => some FabricFeature.SlackThreshold
  | 7 => some FabricFeature.ShapingPretenstFactor
  | 8 => some FabricFeature.ShapingStiffnessFactor
  | 9 => some FabricFeature.ShapingDrag
  | 10 => some FabricFeature.MaxStrain
  | 11 => some FabricFeature.VisualStrain
  | 12 => some FabricFeature.NexusPushLength
  | 13 => some FabricFeature.ColumnPushLength
  | 14 => some FabricFeature.TriangleLength
  | 15 => some FabricFeature.RingLength
  | 16 => some FabricFeature.NexusCrossLength
  | 17 => some FabricFeature.ColumnCrossLength
  | 18 => some FabricFeature.BowMidLength
  | 19 => some FabricFeature.BowEndLength
  | 20 => some FabricFeature.PushOverPull
  | 21 => some FabricFeature.PushRadiusFactor
  | 22 => some FabricFeature.PullRadiusFactor
  | 23 => some FabricFeature.MaxStiffness
  | _ => none

/-- Modelled from the spec: construction of an IntervalRole from a raw u8
tag, failing with none on an out-of-range tag (spec section 7). -/
def intervalRoleFromTag : ℕ → Option IntervalRole
  | 0 => some IntervalRole.NexusPush
  | 1 => some IntervalRole.ColumnPush
  | 2 => some IntervalRole.Triangle
  | 3 => some IntervalRole.Ring
  | 4 => some IntervalRole.NexusCross
  | 5 => some IntervalRole.ColumnCross
  | 6 => some IntervalRole.BowMid
  | 7 => some IntervalRole.BowEnd
  | 8 => some IntervalRole.FacePull
  | _ => none

/-- The length feature of the feature table corresponding to an interval
role by name (NexusPush to NexusPushLength, and so on through BowEnd to
BowEndLength); FacePull has no length feature. -/
def lengthFeature : IntervalRole → Option FabricFeature
  | IntervalRole.NexusPush => some FabricFeature.NexusPushLength
  | IntervalRole.ColumnPush => some FabricFeature.ColumnPushLength
  | IntervalRole.Triangle => some FabricFeature.TriangleLength
  | IntervalRole.Ring => some FabricFeature.RingLength
  | IntervalRole.NexusCross => some FabricFeature.NexusCrossLength
  | IntervalRole.ColumnCross => some FabricFeature.ColumnCrossLength
  | IntervalRole.BowMid => some FabricFeature.BowMidLength
  | IntervalRole.BowEnd => some FabricFeature.BowEndLength
  | IntervalRole.FacePull => none

/-- A raw pair equal (as a pair) to an explicit numerator and denominator
has the corresponding quotient as its value. -/
lemma PreQ.val_pair {a : PreQ} {m k : ℤ} (h : a = PreQ.mk m k) :
    a.val = (m : ℚ) / (k : ℚ) := by
  rw [h]; rfl

/-- A raw pair with positive numerator and denominator has positive value. -/
lemma PreQ.val_pos {a : PreQ} (hd : 0 < a.d) (hn : 0 < a.n) : 0 < a.val := by
  have hdq : (0 : ℚ) < (a.d : ℚ) := by exact_mod_cast hd
  have hnq : (0 : ℚ) < (a.n : ℚ) := by exact_mod_cast hn
  exact div_pos hnq hdq

/-- A raw pair with positive denominator and numerator between 0 and the
denominator has value in the closed unit interval. -/
lemma PreQ.val_in_unit {a : PreQ} (hd : 0 < a.d) (h0 : 0 ≤ a.n) (h1 : a.n ≤ a.d) :
    0 ≤ a.val ∧ a.val ≤ 1 := by
  have hdq : (0 : ℚ) < (a.d : ℚ) := by exact_mod_cast hd
  constructor
  · exact div_nonneg (by exact_mod_cast h0) hdq.le
  · show (a.n : ℚ) / (a.d : ℚ) ≤ 1
    rw [div_le_one hdq]
    exact_mod_cast h1

/-- A rational lower bound for a real square root, from the squared
comparison. -/
lemma lt_sqrt_of_sq_lt {a q : ℝ} (ha : 0 ≤ a) (h : a ^ 2 < q) : a < Real.sqrt q := by
  have hh := Real.sqrt_lt_sqrt (by positivity) h
  rwa [Real.sqrt_sq ha] at hh

/-- A rational upper bound for a real square root, from the squared
comparison. -/
lemma sqrt_lt_of_lt_sq {a q : ℝ} (ha : 0 ≤ a) (hq : 0 ≤ q) (h : q < a ^ 2) :
    Real.sqrt q < a := by
  have hh := Real.sqrt_lt_sqrt hq h
  rwa [Real.sqrt_sq ha] at hh

/-- Rational enclosure of the real Ring rest length sqrt (2 - 2 sqrt (2/3)):
it lies strictly between 10163820 / 2 ^ 24 and 10163821 / 2 ^ 24, that is,
strictly between one and two ULPs above the binary32 value the code
computes. -/
lemma ring_real_enclosure :
    (10163820 / 16777216 : ℝ) < Real.sqrt (2 - 2 * Real.sqrt (2 / 3)) ∧
      Real.sqrt (2 - 2 * Real.sqrt (2 / 3)) < (10163821 / 16777216 : ℝ) := by
  have hshi : Real.sqrt (2 / 3) < 28727919776807 / 35184372088832 :=
    sqrt_lt_of_lt_sq (by norm_num) (by norm_num) (by norm_num)
  have hslo : (459646696101271 / 562949953421312 : ℝ) < Real.sqrt (2 / 3) :=
    lt_sqrt_of_sq_lt (by norm_num) (by norm_num)
  constructor
  · exact lt_sqrt_of_sq_lt (by norm_num) (by nlinarith [hshi])
  · exact sqrt_lt_of_lt_sq (by norm_num) (by nlinarith [hshi]) (by nlinarith [hslo])

/-- Rational enclosure of the real NexusCross rest length: with PHI the
golden ratio (1 + sqrt 5) / 2, the real
sqrt (CROSS1 ^ 2 + CROSS2 ^ 2 + CROSS3 ^ 2) of spec section 4.2 lies
strictly between 9304060 / 2 ^ 23 and 9304062 / 2 ^ 23, that is, within
one ULP on either side of the binary32 value the code computes. -/
lemma nexus_cross_real_enclosure :
    (9304060 / 8388608 : ℝ) <
        Real.sqrt ((1 / 2) ^ 2
          + (((1 + Real.sqrt 5) / 2 / 3 - 1 / 6) * Real.sqrt 3) ^ 2
          + ((1 + Real.sqrt 5) / 2 / 3 * Real.sqrt 3 - 1 + Real.sqrt 2 / Real.sqrt 3) ^ 2) ∧
      Real.sqrt ((1 / 2) ^ 2
          + (((1 + Real.sqrt 5) / 2 / 3 - 1 / 6) * Real.sqrt 3) ^ 2
          + ((1 + Real.sqrt 5) / 2 / 3 * Real.sqrt 3 - 1 + Real.sqrt 2 / Real.sqrt 3) ^ 2)
        < (9304062 / 8388608 : ℝ) := by
  have h5 : Real.sqrt 5 ^ 2 = 5 := Real.sq_sqrt (by norm_num)
  have h3 : Real.sqrt 3 ^ 2 = 3 := Real.sq_sqrt (by norm_num)
  have h3pos : (0 : ℝ) < Real.sqrt 3 := Real.sqrt_pos.mpr (by norm_num)
  have hmul5 : Real.sqrt 5 * Real.sqrt 3 = Real.sqrt 15 := by
    rw [← Real.sqrt_mul (by norm_num : (0:ℝ) ≤ 5) 3]
    norm_num
  have hmul2 : Real.sqrt 2 * Real.sqrt 3 = Real.sqrt 6 := by
    rw [← Real.sqrt_mul (by norm_num : (0:ℝ) ≤ 2) 3]
    norm_num
  have hdiv : Real.sqrt 2 / Real.sqrt 3 = Real.sqrt 6 / 3 := by
    rw [div_eq_div_iff h3pos.ne' (by norm_num : (3:ℝ) ≠ 0), ← hmul2]
    linear_combination (-(Real.sqrt 2)) * h3
  have hc2 : (((1 + Real.sqrt 5) / 2 / 3 - 1 / 6) * Real.sqrt 3) ^ 2 = 5 / 12 := by
    rw [show ((1 + Real.sqrt 5) / 2 / 3 - 1 / 6) * Real.sqrt 3
        = Real.sqrt 5 * Real.sqrt 3 / 6 from by ring]
    rw [show (Real.sqrt 5 * Real.sqrt 3 / 6) ^ 2
        = Real.sqrt 5 ^ 2 * Real.sqrt 3 ^ 2 / 36 from by ring, h5, h3]
    norm_num
  have hc3eq : (1 + Real.sqrt 5) / 2 / 3 * Real.sqrt 3 - 1 + Real.sqrt 2 / Real.sqrt 3
      = Real.sqrt 3 / 6 + Real.sqrt 15 / 6 - 1 + Real.sqrt 6 / 3 := by
    rw [hdiv, ← hmul5]
    ring
  have ha3 : (1732050807568877 / 1000000000000000 : ℝ) < Real.sqrt 3 :=
    lt_sqrt_of_sq_lt (by norm_num) (by norm_num)
  have hb3 : Real.sqrt 3 < (1732050807568878 / 1000000000000000 : ℝ) :=
    sqrt_lt_of_lt_sq (by norm_num) (by norm_num) (by norm_num)
  have ha15 : (3872983346207416 / 1000000000000000 : ℝ) < Real.sqrt 15 :=
    lt_sqrt_of_sq_lt (by norm_num) (by norm_num)
  have hb15 : Real.sqrt 15 < (3872983346207417 / 1000000000000000 : ℝ) :=
    sqrt_lt_of_lt_sq (by norm_num) (by norm_num) (by norm_num)
  have ha6 : (2449489742783178 / 1000000000000000 : ℝ) < Real.sqrt 6 :=
    lt_sqrt_of_sq_lt (by norm_num) (by norm_num)
  have hb6 : Real.sqrt 6 < (2449489742783179 / 1000000000000000 : ℝ) :=
    sqrt_lt_of_lt_sq (by norm_num) (by norm_num) (by norm_num)
  have hc3lo : (4504013639342649 / 6000000000000000 : ℝ)
      < (1 + Real.sqrt 5) / 2 / 3 * Real.sqrt 3 - 1 + Real.sqrt 2 / Real.sqrt 3 := by
    rw [hc3eq]
    linarith
  have hc3hi : (1 + Real.sqrt 5) / 2 / 3 * Real.sqrt 3 - 1 + Real.sqrt 2 / Real.sqrt 3
      < (4504013639342653 / 6000000000000000 : ℝ) := by
    rw [hc3eq]
    linarith
  rw [hc2]
  constructor
  · exact lt_sqrt_of_sq_lt (by norm_num) (by nlinarith [hc3lo])
  · exact sqrt_lt_of_lt_sq (by norm_num) (by nlinarith [hc3lo]) (by nlinarith [hc3lo, hc3hi])

/-- C1: default_fabric_feature is a total function on the 24 FabricFeature
variants and returns, for every variant, exactly the binary32 value listed
in the spec section 4.3 feature table (with the derived entries given by
the section 4.2 formulas evaluated in f32 arithmetic): the source table and
the spec table denote the same f32 value at every feature. -/
theorem default_fabric_feature_matches_spec_table :
    ∀ f : FabricFeature, (default_fabric_feature f).val = (specFeatureValue f).val := by
  intro f
  cases f <;> exact congrArg PreQ.val (by decide)

/-- C2: the spec-modelled default_rest_length is a total pure function on
the 9 roles, and for every role except FacePull it returns the exact
binary32 evaluation of the section 4.2 formula; each equation spells the
exact rational that binary32 value denotes (PHI for NexusPush, sqrt 2 for
ColumnPush, 1 for Triangle, the Ring and NexusCross radicals, 1 for
ColumnCross, 0.4 for BowMid, 0.6 for BowEnd). -/
theorem default_rest_length_values :
    (default_rest_length IntervalRole.NexusPush).val = 13573053 / 8388608 ∧
    (default_rest_length IntervalRole.ColumnPush).val = 11863283 / 8388608 ∧
    (default_rest_length IntervalRole.Triangle).val = 1 ∧
    (default_rest_length IntervalRole.Ring).val = 10163819 / 16777216 ∧
    (default_rest_length IntervalRole.NexusCross).val = 9304061 / 8388608 ∧
    (default_rest_length IntervalRole.ColumnCross).val = 1 ∧
    (default_rest_length IntervalRole.BowMid).val = 13421773 / 33554432 ∧
    (default_rest_length IntervalRole.BowEnd).val = 10066330 / 16777216 := by
  refine ⟨?_, ?_, ?_, ?_, ?_, ?_, ?_, ?_⟩
  · rw [PreQ.val_pair (show default_rest_length IntervalRole.NexusPush
      = PreQ.mk 13573053 8388608 from by decide)]
    norm_num
  · rw [PreQ.val_pair (show default_rest_length IntervalRole.ColumnPush
      = PreQ.mk 11863283 8388608 from by decide)]
    norm_num
  · rw [PreQ.val_pair (show default_rest_length IntervalRole.Triangle
      = PreQ.mk 8388608 8388608 from by decide)]
    norm_num
  · rw [PreQ.val_pair (show default_rest_length IntervalRole.Ring
      = PreQ.mk 10163819 16777216 from by decide)]
    norm_num
  · rw [PreQ.val_pair (show default_rest_length IntervalRole.NexusCross
      = PreQ.mk 9304061 8388608 from by decide)]
    norm_num
  · rw [PreQ.val_pair (show default_rest_length IntervalRole.ColumnCross
      = PreQ.mk 8388608 8388608 from by decide)]
    norm_num
  · rw [PreQ.val_pair (show default_rest_length IntervalRole.BowMid
      = PreQ.mk 13421773 33554432 from by decide)]
    norm_num
  · rw [PreQ.val_pair (show default_rest_length IntervalRole.BowEnd
      = PreQ.mk 10066330 16777216 from by decide)]
    norm_num

/-- C3: the Stage comparison derived from discriminants is a reflexive
total order agreeing with declaration order, the chain Busy < Growing <
Shaping < Slack < Realizing < Realized holds, and two stages compare equal
exactly when they are the identical variant. -/
theorem stage_order_properties :
    (∀ s : Stage, stage_le s s) ∧
    (∀ s t : Stage, stage_le s t → stage_le t s → s = t) ∧
    (∀ s t u : Stage, stage_le s t → stage_le t u → stage_le s u) ∧
    (∀ s t : Stage, stage_le s t ∨ stage_le t s) ∧
    stage_lt Stage.Busy Stage.Growing ∧ stage_lt Stage.Growing Stage.Shaping ∧
    stage_lt Stage.Shaping Stage.Slack ∧ stage_lt Stage.Slack Stage.Realizing ∧
    stage_lt Stage.Realizing Stage.Realized ∧
    (∀ s t : Stage, stage_eq s t = true ↔ s = t) := by
  decide

/-- Witness for the Stage order theorem: its antisymmetry and transitivity
components applied at concrete stages, hypotheses discharged by decide. -/
theorem stage_order_properties_witness :
    Stage.Busy = Stage.Busy ∧ stage_le Stage.Busy Stage.Shaping :=
  ⟨stage_order_properties.2.1 Stage.Busy Stage.Busy (by decide) (by decide),
   stage_order_properties.2.2.1 Stage.Busy Stage.Growing Stage.Shaping (by decide) (by decide)⟩

/-- C4 counterexample: the RingLength default is NOT within one ULP of the
exact real value sqrt (2 - 2 * sqrt (2 / 3)): the distance strictly exceeds
the ULP 2 ^ (-24) of the stored value (the actual distance is about 1.21
ULPs), refuting the claim at the RingLength entry. -/
theorem ring_length_beyond_one_ulp :
    ((ulpF32 (default_fabric_feature FabricFeature.RingLength)).val : ℝ)
      < |((default_fabric_feature FabricFeature.RingLength).val : ℝ)
          - Real.sqrt (2 - 2 * Real.sqrt (2 / 3))| := by
  have hx : (default_fabric_feature FabricFeature.RingLength).val = 10163819 / 16777216 := by
    rw [PreQ.val_pair (show default_fabric_feature FabricFeature.RingLength
      = PreQ.mk 10163819 16777216 from by decide)]
    norm_num
  have hu : (ulpF32 (default_fabric_feature FabricFeature.RingLength)).val = 1 / 16777216 := by
    rw [PreQ.val_pair (show ulpF32 (default_fabric_feature FabricFeature.RingLength)
      = PreQ.mk 1 16777216 from by decide)]
    norm_num
  rw [hx, hu]
  push_cast
  rw [abs_sub_comm, abs_of_pos (by linarith [ring_real_enclosure.1] :
    (0:ℝ) < Real.sqrt (2 - 2 * Real.sqrt (2 / 3)) - 10163819 / 16777216)]
  linarith [ring_real_enclosure.1]

/-- C4 amended: the RingLength default equals sqrt (2 - 2 * sqrt (2 / 3))
to within two ULPs of f32 precision (not one: see the counterexample), and
the NexusCrossLength default equals
sqrt (CROSS1 ^ 2 + CROSS2 ^ 2 + CROSS3 ^ 2), with CROSS1 = 0.5,
CROSS2 = (PHI / 3 - 1 / 6) * sqrt 3 and
CROSS3 = PHI / 3 * sqrt 3 - 1 + sqrt 2 / sqrt 3 for PHI the golden ratio,
to within one ULP. -/
theorem derived_length_ulp_bounds :
    |((default_fabric_feature FabricFeature.RingLength).val : ℝ)
        - Real.sqrt (2 - 2 * Real.sqrt (2 / 3))|
      ≤ 2 * ((ulpF32 (default_fabric_feature FabricFeature.RingLength)).val : ℝ) ∧
    |((default_fabric_feature FabricFeature.NexusCrossLength).val : ℝ)
        - Real.sqrt ((1 / 2) ^ 2
            + (((1 + Real.sqrt 5) / 2 / 3 - 1 / 6) * Real.sqrt 3) ^ 2
            + ((1 + Real.sqrt 5) / 2 / 3 * Real.sqrt 3 - 1 + Real.sqrt 2 / Real.sqrt 3) ^ 2)|
      ≤ ((ulpF32 (default_fabric_feature FabricFeature.NexusCrossLength)).val : ℝ) := by
  have hx : (default_fabric_feature FabricFeature.RingLength).val = 10163819 / 16777216 := by
    rw [PreQ.val_pair (show default_fabric_feature FabricFeature.RingLength
      = PreQ.mk 10163819 16777216 from by decide)]
    norm_num
  have hu : (ulpF32 (default_fabric_feature FabricFeature.RingLength)).val = 1 / 16777216 := by
    rw [PreQ.val_pair (show ulpF32 (default_fabric_feature FabricFeature.RingLength)
      = PreQ.mk 1 16777216 from by decide)]
    norm_num
  have hy : (default_fabric_feature FabricFeature.NexusCrossLength).val
      = 9304061 / 8388608 := by
    rw [PreQ.val_pair (show default_fabric_feature FabricFeature.NexusCrossLength
      = PreQ.mk 9304061 8388608 from by decide)]
    norm_num
  have hv : (ulpF32 (default_fabric_feature FabricFeature.NexusCrossLength)).val
      = 1 / 8388608 := by
    rw [PreQ.val_pair (show ulpF32 (default_fabric_feature FabricFeature.NexusCrossLength)
      = PreQ.mk 1 8388608 from by decide)]
    norm_num
  rw [hx, hu, hy, hv]
  push_cast
  constructor
  · rw [abs_le]
    constructor
    · linarith [ring_real_enclosure.2]
    · linarith [ring_real_enclosure.1]
  · rw [abs_le]
    constructor
    · linarith [nexus_cross_real_enclosure.2]
    · linarith [nexus_cross_real_enclosure.1]

/-- C5: the feature table and the role table agree on the nexus push
length: the NexusPushLength feature default (computed in the source from
the decimal literal ROOT5) and the spec-modelled rest length of NexusPush
(computed from an f32 square root of 5) denote the same binary32 value. -/
theorem nexus_push_feature_equals_rest_length :
    (default_fabric_feature FabricFeature.NexusPushLength).val
      = (default_rest_length IntervalRole.NexusPush).val :=
  congrArg PreQ.val (by decide)

/-- C6: constructing any of the four enumerations from a raw u8 tag
succeeds exactly on the tags of declared variants (at most 5 for Stage, 3
for SurfaceCharacter, 23 for FabricFeature, 8 for IntervalRole) and fails
with none on every out-of-range tag, in particular on tag 99 for
IntervalRole. -/
theorem enum_from_tag_fails_out_of_range :
    (∀ t : Fin 256, (stageFromTag t.val).isSome ↔ t.val ≤ 5) ∧
    (∀ t : Fin 256, (surfaceCharacterFromTag t.val).isSome ↔ t.val ≤ 3) ∧
    (∀ t : Fin 256, (fabricFeatureFromTag t.val).isSome ↔ t.val ≤ 23) ∧
    (∀ t : Fin 256, (intervalRoleFromTag t.val).isSome ↔ t.val ≤ 8) ∧
    intervalRoleFromTag 99 = none := by
  decide

/-- C7: the four enumerations carry small integer discriminants assigned in
declaration order starting at 0: Stage spans 0 to 5, SurfaceCharacter 0 to
3, FabricFeature 0 to 23 and IntervalRole 0 to 8, with every variant at its
declared position. -/
theorem enum_tag_ordinals :
    stageTag Stage.Busy = 0 ∧ stageTag Stage.Growing = 1 ∧ stageTag Stage.Shaping = 2 ∧
    stageTag Stage.Slack = 3 ∧ stageTag Stage.Realizing = 4 ∧ stageTag Stage.Realized = 5 ∧
    surfaceCharacterTag SurfaceCharacter.Frozen = 0 ∧
    surfaceCharacterTag SurfaceCharacter.Sticky = 1 ∧
    surfaceCharacterTag SurfaceCharacter.Slippery = 2 ∧
    surfaceCharacterTag SurfaceCharacter.Bouncy = 3 ∧
    fabricFeatureTag FabricFeature.Gravity = 0 ∧
    fabricFeatureTag FabricFeature.Drag = 1 ∧
    fabricFeatureTag FabricFeature.PretenstFactor = 2 ∧
    fabricFeatureTag FabricFeature.IterationsPerFrame = 3 ∧
    fabricFeatureTag FabricFeature.IntervalCountdown = 4 ∧
    fabricFeatureTag FabricFeature.RealizingCountdown = 5 ∧
    fabricFeatureTag FabricFeature.SlackThreshold = 6 ∧
    fabricFeatureTag FabricFeature.ShapingPretenstFactor = 7 ∧
    fabricFeatureTag FabricFeature.ShapingStiffnessFactor = 8 ∧
    fabricFeatureTag FabricFeature.ShapingDrag = 9 ∧
    fabricFeatureTag FabricFeature.MaxStrain = 10 ∧
    fabricFeatureTag FabricFeature.VisualStrain = 11 ∧
    fabricFeatureTag FabricFeature.NexusPushLength = 12 ∧
    fabricFeatureTag FabricFeature.ColumnPushLength = 13 ∧
    fabricFeatureTag FabricFeature.TriangleLength = 14 ∧
    fabricFeatureTag FabricFeature.RingLength = 15 ∧
    fabricFeatureTag FabricFeature.NexusCrossLength = 16 ∧
    fabricFeatureTag FabricFeature.ColumnCrossLength = 17 ∧
    fabricFeatureTag FabricFeature.BowMidLength = 18 ∧
    fabricFeatureTag FabricFeature.BowEndLength = 19 ∧
    fabricFeatureTag FabricFeature.PushOverPull = 20 ∧
    fabricFeatureTag FabricFeature.PushRadiusFactor = 21 ∧
    fabricFeatureTag FabricFeature.PullRadiusFactor = 22 ∧
    fabricFeatureTag FabricFeature.MaxStiffness = 23 ∧
    intervalRoleTag IntervalRole.NexusPush = 0 ∧
    intervalRoleTag IntervalRole.ColumnPush = 1 ∧
    intervalRoleTag IntervalRole.Triangle = 2 ∧
    intervalRoleTag IntervalRole.Ring = 3 ∧
    intervalRoleTag IntervalRole.NexusCross = 4 ∧
    intervalRoleTag IntervalRole.ColumnCross = 5 ∧
    intervalRoleTag IntervalRole.BowMid = 6 ∧
    intervalRoleTag IntervalRole.BowEnd = 7 ∧
    intervalRoleTag IntervalRole.FacePull = 8 := by
  decide

/-- C8: the role color palette has exactly 9 entries and the rainbow
palette exactly 12, and every component of every 3-tuple in either palette
is a binary32 value in the closed interval from 0 to 1. -/
theorem palette_sizes_and_ranges :
    ROLE_COLORS.length = 9 ∧ RAINBOW.length = 12 ∧
    (∀ i : Fin ROLE_COLORS.length,
      (0 ≤ (ROLE_COLORS.get i).1.val ∧ (ROLE_COLORS.get i).1.val ≤ 1) ∧
      (0 ≤ (ROLE_COLORS.get i).2.1.val ∧ (ROLE_COLORS.get i).2.1.val ≤ 1) ∧
      (0 ≤ (ROLE_COLORS.get i).2.2.val ∧ (ROLE_COLORS.get i).2.2.val ≤ 1)) ∧
    (∀ i : Fin RAINBOW.length,
      (0 ≤ (RAINBOW.get i).1.val ∧ (RAINBOW.get i).1.val ≤ 1) ∧
      (0 ≤ (RAINBOW.get i).2.1.val ∧ (RAINBOW.get i).2.1.val ≤ 1) ∧
      (0 ≤ (RAINBOW.get i).2.2.val ∧ (RAINBOW.get i).2.2.val ≤ 1)) := by
  refine ⟨rfl, rfl, ?_, ?_⟩ <;> intro i <;> fin_cases i <;>
    exact ⟨PreQ.val_in_unit (by decide) (by decide) (by decide),
      PreQ.val_in_unit (by decide) (by decide) (by decide),
      PreQ.val_in_unit (by decide) (by decide) (by decide)⟩

/-- C9: every FabricFeature default is strictly positive. -/
theorem feature_defaults_positive :
    ∀ f : FabricFeature, 0 < (default_fabric_feature f).val := by
  intro f
  cases f <;> exact PreQ.val_pos (by decide) (by decide)

/-- C10: for every interval role except FacePull, the ordinal of its length
feature is the role ordinal plus 12 (the eight length features occupy the
consecutive feature ordinals 12 through 19 in role order), and FacePull is
the only role with no length feature. -/
theorem length_feature_ordinal_offset :
    (∀ r : IntervalRole,
      (lengthFeature r).map fabricFeatureTag
        = if r = IntervalRole.FacePull then none else some (intervalRoleTag r + 12)) ∧
    fabricFeatureTag FabricFeature.NexusPushLength = 12 ∧
    fabricFeatureTag FabricFeature.BowEndLength = 19 := by
  decide
